import Mathlib

/-!
Verification development for the meal optimizer program
(src/food_optimizer.py).

The embedding models the core of the program: the constraint set
(read_constraints), the mixed-integer program construction inside
meal_optimizer, the extraction of the best meal / best groups / result
totals from a solved program, and the seven-day planning loop of the
main block.  The external LP solver (pulp + CBC) is modelled as an
oracle that, given the built program, returns a status together with a
value for every variable; the surrounding code is translated faithfully
from the source.  Machine floats of the source are modelled as exact
rationals.
-/

attribute [local semireducible] Rat.mul Rat.add Rat.sub Rat.inv Rat.ofScientific

/-- One prepared food record, as produced by the external preprocessing
stage: id, display name, energy density (kJ), energy from carbohydrate,
protein and fat (kJ), fibre mass (g), sugar mass (g), and the category
label taken from the selected food group column. -/
structure FoodItem where
  id : Int
  name : String
  energy : ℚ
  carbE : ℚ
  protE : ℚ
  fatE : ℚ
  fibre : ℚ
  sugar : ℚ
  group : String
deriving DecidableEq, Repr

/-- The numeric constraint values built by read_constraints. -/
structure CValues where
  energy_limit_kJ : ℚ
  fibre_lower_limit : ℚ
  individual_component_upper_limit : ℚ
  fat_target : ℚ
  protein_target : ℚ
  carb_target : ℚ
  fat_limit : ℚ
  protein_limit : ℚ
  carb_limit : ℚ
  food_group_limit : ℕ
deriving DecidableEq, Repr

/-- read_constraints from the source: energy is 2000 kcal converted to
kJ (factor 4.184), macro limits are target fractions of that energy. -/
def read_constraints : CValues :=
  ⟨2000 * (4184 / 1000), 20, 5, 1 / 5, 3 / 10, 1 / 2,
   (1 / 5) * (2000 * (4184 / 1000)), (3 / 10) * (2000 * (4184 / 1000)),
   (1 / 2) * (2000 * (4184 / 1000)), 3⟩

/-- A decision variable of the built program: one continuous Food
variable per item id, one binary Group indicator per category. -/
inductive Var
  | food : Int → Var
  | group : String → Var
deriving DecidableEq, Repr

/-- Comparison direction of a linear constraint. -/
inductive CmpRel
  | eq
  | le
  | ge
deriving DecidableEq, Repr

/-- A linear constraint: a linear combination of variables compared to
a right hand side constant. -/
structure Constr where
  terms : List (Var × ℚ)
  rel : CmpRel
  rhs : ℚ
deriving DecidableEq, Repr

/-- The built mathematical program: minimized objective, constraint
list, the continuous portion variables (lower bound 0) and the binary
category indicators. -/
structure Program where
  objTerms : List (Var × ℚ)
  constraints : List Constr
  contVars : List Int
  binVars : List String
deriving DecidableEq, Repr

/-- Order-preserving list of first occurrences, modelling
pandas unique() on the food group column. -/
def uniqueGroups (l : List String) : List String :=
  l.foldl (fun acc g => if g ∈ acc then acc else acc ++ [g]) []

/-- Value of a variable under an assignment of the food and group
variables. -/
def varValue (fv : Int → ℚ) (gv : String → ℚ) : Var → ℚ
  | Var.food i => fv i
  | Var.group g => gv g

/-- Value of a linear combination under an assignment. -/
def evalTerms (fv : Int → ℚ) (gv : String → ℚ) (ts : List (Var × ℚ)) : ℚ :=
  (ts.map (fun t => t.2 * varValue fv gv t.1)).sum

/-- The program built by meal_optimizer before solving, translated
constraint by constraint from the source: the sugar objective, the
energy / carbohydrate / fat / protein equalities, the fibre lower
bound, the per-item upper bound, the two linking constraints per item
(with epsilon 1e-5 and big constant 1e5) and the minimum food group
count. -/
def buildProgram (data : List FoodItem) (cv : CValues) : Program :=
  ⟨data.map (fun it => (Var.food it.id, it.sugar)),
   [⟨data.map (fun it => (Var.food it.id, it.energy)), CmpRel.eq, cv.energy_limit_kJ⟩,
    ⟨data.map (fun it => (Var.food it.id, it.carbE)), CmpRel.eq, cv.carb_limit⟩,
    ⟨data.map (fun it => (Var.food it.id, it.fatE)), CmpRel.eq, cv.fat_limit⟩,
    ⟨data.map (fun it => (Var.food it.id, it.protE)), CmpRel.eq, cv.protein_limit⟩,
    ⟨data.map (fun it => (Var.food it.id, it.fibre)), CmpRel.ge, cv.fibre_lower_limit⟩]
   ++ data.map (fun it =>
        ⟨[(Var.food it.id, 1)], CmpRel.le, cv.individual_component_upper_limit⟩)
   ++ (data.map (fun it =>
        [(⟨[(Var.food it.id, 1), (Var.group it.group, -(1 / 100000))], CmpRel.ge, 0⟩ : Constr),
         (⟨[(Var.food it.id, 1), (Var.group it.group, -100000)], CmpRel.le, 0⟩ : Constr)])).flatten
   ++ [⟨(uniqueGroups (data.map (fun it => it.group))).map (fun g => (Var.group g, 1)),
        CmpRel.ge, (cv.food_group_limit : ℚ)⟩],
   data.map (fun it => it.id),
   uniqueGroups (data.map (fun it => it.group))⟩

/-- What the external solver hands back: a status (1 means optimal in
pulp) and a value for every Food and Group variable. -/
structure SolverOutput where
  status : Int
  foodVal : Int → ℚ
  groupVal : String → ℚ

/-- An assignment satisfies one constraint. -/
def constrHolds (fv : Int → ℚ) (gv : String → ℚ) (c : Constr) : Prop :=
  match c.rel with
  | CmpRel.eq => evalTerms fv gv c.terms = c.rhs
  | CmpRel.le => evalTerms fv gv c.terms ≤ c.rhs
  | CmpRel.ge => c.rhs ≤ evalTerms fv gv c.terms

instance (fv : Int → ℚ) (gv : String → ℚ) (c : Constr) :
    Decidable (constrHolds fv gv c) :=
  match c with
  | ⟨t, CmpRel.eq, r⟩ => inferInstanceAs (Decidable (evalTerms fv gv t = r))
  | ⟨t, CmpRel.le, r⟩ => inferInstanceAs (Decidable (evalTerms fv gv t ≤ r))
  | ⟨t, CmpRel.ge, r⟩ => inferInstanceAs (Decidable (r ≤ evalTerms fv gv t))

/-- An assignment satisfies every constraint of a program. -/
@[reducible] def satisfies (out : SolverOutput) (p : Program) : Prop :=
  ∀ c ∈ p.constraints, constrHolds out.foodVal out.groupVal c

/-- A solver is sound when an optimal status implies that the returned
assignment satisfies every constraint of the program it was given. -/
def soundSolver (s : Program → SolverOutput) : Prop :=
  ∀ p, (s p).status = 1 → satisfies (s p) p

/-- One chosen food of the extracted meal: id, name and portion, as
collected into best_meal by the source. -/
structure MealEntry where
  id : Int
  name : String
  portion : ℚ
deriving DecidableEq, Repr

/-- The aggregate totals the source collects into its results dict. -/
structure MealResults where
  totalSugar : ℚ
  totalEnergy : ℚ
  carbEnergy : ℚ
  proteinEnergy : ℚ
  fatEnergy : ℚ
  totalFibre : ℚ
deriving DecidableEq, Repr

/-- best_meal extraction: every Food variable whose value exceeds
1.1e-5 is kept, with its id, name and portion. -/
def bestMealOf (data : List FoodItem) (out : SolverOutput) : List MealEntry :=
  (data.filter (fun it => decide (11 / 1000000 < out.foodVal it.id))).map
    (fun it => ⟨it.id, it.name, out.foodVal it.id⟩)

/-- best_group extraction: every Group variable with a positive value. -/
def bestGroupOf (data : List FoodItem) (out : SolverOutput) : List String :=
  (uniqueGroups (data.map (fun it => it.group))).filter
    (fun g => decide (0 < out.groupVal g))

/-- The results dict of the source: Total sugar is the objective value
of the solved program (summed over all Food variables), while the other
totals are dot products over the chosen items only, the three macro
shares being divided by the recomputed total energy. -/
def resultsOf (data : List FoodItem) (prog : Program) (out : SolverOutput) :
    MealResults :=
  ⟨evalTerms out.foodVal out.groupVal prog.objTerms,
   ((data.filter (fun it => decide (11 / 1000000 < out.foodVal it.id))).map
     (fun it => it.energy * out.foodVal it.id)).sum,
   ((data.filter (fun it => decide (11 / 1000000 < out.foodVal it.id))).map
     (fun it => it.carbE * out.foodVal it.id)).sum /
    ((data.filter (fun it => decide (11 / 1000000 < out.foodVal it.id))).map
     (fun it => it.energy * out.foodVal it.id)).sum,
   ((data.filter (fun it => decide (11 / 1000000 < out.foodVal it.id))).map
     (fun it => it.protE * out.foodVal it.id)).sum /
    ((data.filter (fun it => decide (11 / 1000000 < out.foodVal it.id))).map
     (fun it => it.energy * out.foodVal it.id)).sum,
   ((data.filter (fun it => decide (11 / 1000000 < out.foodVal it.id))).map
     (fun it => it.fatE * out.foodVal it.id)).sum /
    ((data.filter (fun it => decide (11 / 1000000 < out.foodVal it.id))).map
     (fun it => it.energy * out.foodVal it.id)).sum,
   ((data.filter (fun it => decide (11 / 1000000 < out.foodVal it.id))).map
     (fun it => it.fibre * out.foodVal it.id)).sum⟩

/-- meal_optimizer from the source: build the program, hand it to the
solver, and if the status is optimal (1) extract best_meal, best_group
and the results; otherwise return nothing. -/
def meal_optimizer (data : List FoodItem) (cv : CValues)
    (solve : Program → SolverOutput) :
    Option (List MealEntry × List String × MealResults) :=
  if (solve (buildProgram data cv)).status = 1 then
    some (bestMealOf data (solve (buildProgram data cv)),
          bestGroupOf data (solve (buildProgram data cv)),
          resultsOf data (buildProgram data cv) (solve (buildProgram data cv)))
  else none

/-- The catalog filter of the day loop: keep the items whose group is
not among the previous best_group. -/
def filterData (data : List FoodItem) (prev : List String) : List FoodItem :=
  data.filter (fun it => decide (it.group ∉ prev))

/-- The day loop of the main block, one recursive step per remaining
day: filter the catalog by the previous best_group, run meal_optimizer,
abort the whole run on failure (the source exits via sys.exit), and
otherwise record the meal and replace the group set with the new one. -/
def runDays (data : List FoodItem) (cv : CValues)
    (solver : ℕ → Program → SolverOutput) :
    ℕ → ℕ → List String → Option (List (List MealEntry × List String))
  | 0, _, _ => some []
  | fuel + 1, day, prev =>
    (meal_optimizer (filterData data prev) cv (solver day)).bind (fun t =>
      (runDays data cv solver fuel (day + 1) t.2.1).map
        (fun rest => (t.1, t.2.1) :: rest))

/-- The seven-day run of the main block, starting from an empty
best_group. -/
def runWeek (data : List FoodItem) (cv : CValues)
    (solver : ℕ → Program → SolverOutput) :
    Option (List (List MealEntry × List String)) :=
  runDays data cv solver 7 0 []

/-- Categories that occur among the items of an extracted meal, looked
up in the catalog by item id. -/
def mealCategories (data : List FoodItem) (meal : List MealEntry) : List String :=
  (data.filter (fun it => meal.any (fun e => decide (e.id = it.id)))).map
    (fun it => it.group)

/-- Sugar mass of the catalog item with a given id (0 when absent). -/
def sugarOf (data : List FoodItem) (i : Int) : ℚ :=
  ((data.find? (fun it => decide (it.id = i))).map (fun it => it.sugar)).getD 0

/-- Total sugar over only the items of an extracted meal. -/
def mealSugar (data : List FoodItem) (meal : List MealEntry) : ℚ :=
  (meal.map (fun e => sugarOf data e.id * e.portion)).sum

/-- Default triple used to project concrete meal_optimizer results. -/
def mdefault : List MealEntry × List String × MealResults :=
  ([], [], ⟨0, 0, 0, 0, 0, 0⟩)

/-- Concrete catalog for the week-long runs: six items in six distinct
groups.  Items 1 and 4 carry exactly the carbohydrate energy target,
items 2 and 5 the protein target, items 3 and 6 the fat target, so
that portions of one each hit every equality of read_constraints. -/
def exItem1 : FoodItem := ⟨1, "w1", 4184, 4184, 0, 0, 20, 0, "a"⟩

def exItem2 : FoodItem := ⟨2, "w2", 12552 / 5, 0, 12552 / 5, 0, 0, 0, "b"⟩

def exItem3 : FoodItem := ⟨3, "w3", 8368 / 5, 0, 0, 8368 / 5, 0, 0, "c"⟩

def exItem4 : FoodItem := ⟨4, "w4", 4184, 4184, 0, 0, 20, 0, "d"⟩

def exItem5 : FoodItem := ⟨5, "w5", 12552 / 5, 0, 12552 / 5, 0, 0, 0, "e"⟩

def exItem6 : FoodItem := ⟨6, "w6", 8368 / 5, 0, 0, 8368 / 5, 0, 0, "f"⟩

def exData : List FoodItem := [exItem1, exItem2, exItem3, exItem4, exItem5, exItem6]

/-- Optimal solution taking one portion each of items 1, 2, 3. -/
def outEven : SolverOutput :=
  ⟨1, fun i => if i = 1 ∨ i = 2 ∨ i = 3 then 1 else 0,
      fun g => if g = "a" ∨ g = "b" ∨ g = "c" then 1 else 0⟩

/-- Optimal solution taking one portion each of items 4, 5, 6. -/
def outOdd : SolverOutput :=
  ⟨1, fun i => if i = 4 ∨ i = 5 ∨ i = 6 then 1 else 0,
      fun g => if g = "d" ∨ g = "e" ∨ g = "f" then 1 else 0⟩

/-- A solver oracle for the week: even days select groups a, b, c and
odd days select groups d, e, f. -/
def exSolver : ℕ → Program → SolverOutput :=
  fun day _ => if day % 2 = 0 then outEven else outOdd

/-- The weekly plan the loop produces on the concrete catalog. -/
def exPlan : List (List MealEntry × List String) :=
  (runWeek exData read_constraints exSolver).getD []

/-- Catalog for the epsilon-artifact scenario: three groups a, b, c
where group c is representable only at the structural epsilon level. -/
def c5Item1 : FoodItem := ⟨1, "v1", 4184, 4184, 0, 0, 21, 0, "a"⟩

def c5Item2 : FoodItem := ⟨2, "v2", 12552 / 5, 0, 12552 / 5, 0, 0, 0, "b"⟩

def c5Item3 : FoodItem := ⟨3, "v3", 8368 / 5, 0, 0, 8368 / 5, 0, 0, "b"⟩

def c5Item4 : FoodItem := ⟨4, "v4", 4184, 4184, 0, 0, 0, 0, "c"⟩

def c5Data : List FoodItem := [c5Item1, c5Item2, c5Item3, c5Item4]

/-- A feasible, optimal assignment for c5Data: the group c item sits
exactly at the epsilon lower bound 1e-5 and item 1 compensates, so
every constraint of the built program holds exactly. -/
def c5Out : SolverOutput :=
  ⟨1, fun i =>
        if i = 1 then 99999 / 100000
        else if i = 2 ∨ i = 3 then 1
        else if i = 4 then 1 / 100000
        else 0,
      fun g => if g = "a" ∨ g = "b" ∨ g = "c" then 1 else 0⟩

/-- Same catalog as c5Data except that the epsilon-level item of group
c carries sugar, so the objective strictly exceeds the sugar of the
extracted meal. -/
def c10Data : List FoodItem :=
  [c5Item1, c5Item2, c5Item3, ⟨4, "v4", 4184, 4184, 0, 0, 0, 1, "c"⟩]

/-- Single-item catalog whose only solution cannot meet the declared
energy target. -/
def c2Data : List FoodItem := [⟨1, "t1", 1, 0, 0, 0, 0, 0, "a"⟩]

/-- A solver answer claiming optimality while wildly violating the
constraints: the extractor never checks. -/
def c2Out : SolverOutput := ⟨1, fun _ => 1, fun _ => 1⟩

/-- A solver answer with optimal status and all-zero values. -/
def sOne : SolverOutput := ⟨1, fun _ => 0, fun _ => 0⟩

/-- A solver answer with a non-optimal status. -/
def sZero : SolverOutput := ⟨0, fun _ => 0, fun _ => 0⟩

/-- Two-item catalog for the selection-threshold scenario. -/
def c7Data : List FoodItem :=
  [⟨1, "p1", 1, 0, 0, 0, 0, 0, "a"⟩, ⟨2, "p2", 1, 0, 0, 0, 0, 0, "a"⟩]

/-- Item 1 sits exactly at epsilon 1e-5, item 2 at 1.2e-5. -/
def c7Out : SolverOutput :=
  ⟨1, fun i => if i = 1 then 1 / 100000 else if i = 2 then 12 / 1000000 else 0,
      fun _ => 1⟩

/-- A solver oracle that always reports a non-optimal status. -/
def zSolver : ℕ → Program → SolverOutput :=
  fun _ _ => ⟨0, fun _ => 0, fun _ => 0⟩

/-- The program formulation exactly as the specification words it
(section 4.1): sugar-minimizing objective; equality constraints on
total energy and on carbohydrate, protein and fat energy; the fibre
lower bound; the per-item portion upper bound; for every item the two
linking constraints against its category indicator with epsilon 1e-5
and big constant 1e5; and the minimum category count; with one
non-negative continuous portion variable per item and one binary
indicator per distinct category.  Written independently of
buildProgram, in the order the specification lists the constraints. -/
def specModelProgram (data : List FoodItem) (cv : CValues) : Program :=
  ⟨data.map (fun it => (Var.food it.id, it.sugar)),
   [⟨data.map (fun it => (Var.food it.id, it.energy)), CmpRel.eq, cv.energy_limit_kJ⟩,
    ⟨data.map (fun it => (Var.food it.id, it.carbE)), CmpRel.eq, cv.carb_limit⟩,
    ⟨data.map (fun it => (Var.food it.id, it.protE)), CmpRel.eq, cv.protein_limit⟩,
    ⟨data.map (fun it => (Var.food it.id, it.fatE)), CmpRel.eq, cv.fat_limit⟩,
    ⟨data.map (fun it => (Var.food it.id, it.fibre)), CmpRel.ge, cv.fibre_lower_limit⟩]
   ++ data.map (fun it =>
        ⟨[(Var.food it.id, 1)], CmpRel.le, cv.individual_component_upper_limit⟩)
   ++ (data.map (fun it =>
        [(⟨[(Var.food it.id, 1), (Var.group it.group, -(1 / 100000))], CmpRel.ge, 0⟩ : Constr),
         (⟨[(Var.food it.id, 1), (Var.group it.group, -100000)], CmpRel.le, 0⟩ : Constr)])).flatten
   ++ [⟨(uniqueGroups (data.map (fun it => it.group))).map (fun g => (Var.group g, 1)),
        CmpRel.ge, (cv.food_group_limit : ℚ)⟩],
   data.map (fun it => it.id),
   uniqueGroups (data.map (fun it => it.group))⟩

/-- On a successful solve the three components of the returned triple
are exactly the best meal, best group and results extractions. -/
lemma meal_optimizer_some {data : List FoodItem} {cv : CValues}
    {s : Program → SolverOutput}
    {t : List MealEntry × List String × MealResults}
    (h : meal_optimizer data cv s = some t) :
    t.1 = bestMealOf data (s (buildProgram data cv)) ∧
    t.2.1 = bestGroupOf data (s (buildProgram data cv)) ∧
    t.2.2 = resultsOf data (buildProgram data cv) (s (buildProgram data cv)) := by
  by_cases hs : (s (buildProgram data cv)).status = 1
  · simp only [meal_optimizer, hs, if_true, Option.some.injEq] at h
    subst h
    exact ⟨rfl, rfl, rfl⟩
  · simp [meal_optimizer, hs] at h

/-- Membership in the extracted best meal comes from a catalog item
whose variable value exceeds the 1.1e-5 threshold. -/
lemma bestMealOf_mem {data : List FoodItem} {out : SolverOutput} {e : MealEntry}
    (he : e ∈ bestMealOf data out) :
    ∃ it, it ∈ data ∧ e.id = it.id ∧ e.portion = out.foodVal it.id ∧
      11 / 1000000 < out.foodVal it.id := by
  simp only [bestMealOf, List.mem_map, List.mem_filter, decide_eq_true_eq] at he
  obtain ⟨it, ⟨hml, hgt⟩, rfl⟩ := he
  exact ⟨it, hml, rfl, rfl, hgt⟩

/-- Every item with a value above the threshold appears in the best
meal. -/
lemma bestMealOf_mem_of {data : List FoodItem} {out : SolverOutput} {it : FoodItem}
    (hit : it ∈ data) (hgt : 11 / 1000000 < out.foodVal it.id) :
    (⟨it.id, it.name, out.foodVal it.id⟩ : MealEntry) ∈ bestMealOf data out := by
  simp only [bestMealOf, List.mem_map, List.mem_filter, decide_eq_true_eq]
  exact ⟨it, ⟨hit, hgt⟩, rfl⟩

/-- Members of the filtered catalog are catalog items whose group is
not among the previous best groups. -/
lemma filterData_mem {data : List FoodItem} {prev : List String} {it : FoodItem}
    (h : it ∈ filterData data prev) : it ∈ data ∧ it.group ∉ prev := by
  simpa [filterData, List.mem_filter, decide_eq_true_eq] using h

/-- In a catalog with pairwise distinct ids, the id determines the
item. -/
lemma nodup_id_inj {data : List FoodItem}
    (hnd : (data.map FoodItem.id).Nodup) {a b : FoodItem}
    (ha : a ∈ data) (hb : b ∈ data) (hab : a.id = b.id) : a = b :=
  List.inj_on_of_nodup_map hnd ha hb hab

/-- A successful run of the day loop yields one recorded day per unit
of fuel. -/
lemma runDays_length {data : List FoodItem} {cv : CValues}
    {solver : ℕ → Program → SolverOutput} :
    ∀ fuel day prev plan, runDays data cv solver fuel day prev = some plan →
      plan.length = fuel := by
  intro fuel
  induction fuel with
  | zero =>
    intro day prev plan h
    simp only [runDays, Option.some.injEq] at h
    subst h
    rfl
  | succ n ih =>
    intro day prev plan h
    rcases hmo : meal_optimizer (filterData data prev) cv (solver day) with _ | ⟨m, g, r⟩
    · rw [runDays, hmo] at h
      simp only [Option.none_bind] at h
      cases h
    · rw [runDays, hmo] at h
      simp only [Option.some_bind] at h
      rcases hrest : runDays data cv solver n (day + 1) g with _ | rest
      · rw [hrest] at h
        cases h
      · rw [hrest] at h
        simp only [Option.map_some', Option.some.injEq] at h
        subst h
        simp [ih _ _ _ hrest]

/-- The items of the first meal produced by the day loop never come
from a group of the incoming previous-day group set. -/
lemma runDays_head_no_prev {data : List FoodItem} {cv : CValues}
    {solver : ℕ → Program → SolverOutput} {fuel day : ℕ} {prev : List String}
    {plan : List (List MealEntry × List String)}
    (hnd : (data.map FoodItem.id).Nodup)
    (h : runDays data cv solver (fuel + 1) day prev = some plan)
    {e : MealEntry} (he : e ∈ (plan.getD 0 ([], [])).1)
    {it : FoodItem} (hit : it ∈ data) (hid : it.id = e.id) :
    it.group ∉ prev := by
  rcases hmo : meal_optimizer (filterData data prev) cv (solver day) with _ | ⟨m, g, r⟩
  · rw [runDays, hmo] at h
    simp only [Option.none_bind] at h
    cases h
  · rw [runDays, hmo] at h
    simp only [Option.some_bind] at h
    rcases hrest : runDays data cv solver fuel (day + 1) g with _ | rest
    · rw [hrest] at h
      cases h
    · rw [hrest] at h
      simp only [Option.map_some', Option.some.injEq] at h
      subst h
      simp only [List.getD_cons_zero] at he
      have hm : m = bestMealOf (filterData data prev)
          (solver day (buildProgram (filterData data prev) cv)) :=
        (meal_optimizer_some hmo).1
      rw [hm] at he
      obtain ⟨it2, hit2, hid2, _, _⟩ := bestMealOf_mem he
      obtain ⟨hit2d, hg2⟩ := filterData_mem hit2
      have : it = it2 := nodup_id_inj hnd hit hit2d (by rw [hid, hid2])
      rw [this]
      exact hg2

/-- Adjacent-day exclusion along the day loop: every item of the meal
recorded for one day avoids each group recorded for the day before. -/
lemma runDays_adjacent {data : List FoodItem} {cv : CValues}
    {solver : ℕ → Program → SolverOutput}
    (hnd : (data.map FoodItem.id).Nodup) :
    ∀ fuel day prev plan, runDays data cv solver fuel day prev = some plan →
      ∀ d, d + 1 < plan.length →
        ∀ e ∈ (plan.getD (d + 1) ([], [])).1, ∀ it ∈ data, it.id = e.id →
          it.group ∉ (plan.getD d ([], [])).2 := by
  intro fuel
  induction fuel with
  | zero =>
    intro day prev plan h d hd
    simp only [runDays, Option.some.injEq] at h
    subst h
    simp at hd
  | succ n ih =>
    intro day prev plan h d hd e he it hit hid
    rcases hmo : meal_optimizer (filterData data prev) cv (solver day) with _ | ⟨m, g, r⟩
    · rw [runDays, hmo] at h
      simp only [Option.none_bind] at h
      cases h
    · rw [runDays, hmo] at h
      simp only [Option.some_bind] at h
      rcases hrest : runDays data cv solver n (day + 1) g with _ | rest
      · rw [hrest] at h
        cases h
      · rw [hrest] at h
        simp only [Option.map_some', Option.some.injEq] at h
        subst h
        cases d with
        | zero =>
          simp only [List.getD_cons_succ, List.getD_cons_zero] at he ⊢
          have hlen := runDays_length n (day + 1) g rest hrest
          cases n with
          | zero =>
            exfalso
            simp only [List.length_cons] at hd
            omega
          | succ n2 =>
            exact runDays_head_no_prev hnd hrest he hit hid
        | succ d2 =>
          simp only [List.getD_cons_succ] at he ⊢
          simp only [List.length_cons] at hd
          exact ih (day + 1) g rest hrest d2 (by omega) e he it hit hid

/-- The value of the group-count constraint row is the plain sum of the
group variable values. -/
lemma evalTerms_group_ones (fv : Int → ℚ) (gv : String → ℚ) (l : List String) :
    evalTerms fv gv (l.map (fun g => (Var.group g, 1))) = (l.map gv).sum := by
  induction l with
  | nil => rfl
  | cons g t ih =>
    simp only [List.map_cons, evalTerms, List.sum_cons, varValue, one_mul] at ih ⊢
    rw [ih]

/-- For zero-one valued group variables, the sum of the values is at
most the number of groups with a positive value. -/
lemma sum_indicator_le_countPos (gv : String → ℚ) :
    ∀ l : List String, (∀ g ∈ l, gv g = 0 ∨ gv g = 1) →
      (l.map gv).sum ≤ ((l.filter (fun g => decide (0 < gv g))).length : ℚ) := by
  intro l
  induction l with
  | nil => simp
  | cons g t ih =>
    intro hb
    have hg := hb g (List.mem_cons_self g t)
    have ht := ih (fun x hx => hb x (List.mem_cons_of_mem g hx))
    rcases hg with hg | hg
    · have hdec : ¬ (decide (0 < gv g) = true) := by simp [hg]
      simp only [List.map_cons, List.sum_cons, List.filter_cons]
      rw [if_neg hdec, hg, zero_add]
      exact ht
    · have hdec : decide (0 < gv g) = true := by simp [hg]
      simp only [List.map_cons, List.sum_cons, List.filter_cons]
      rw [if_pos hdec, List.length_cons, hg]
      push_cast
      linarith


/-- The per-item upper bound constraint of the built program bounds the
solved value of every item of the catalog. -/
lemma satisfies_upper_bound {data : List FoodItem} {cv : CValues}
    {out : SolverOutput} (hs : satisfies out (buildProgram data cv))
    {it : FoodItem} (hit : it ∈ data) :
    out.foodVal it.id ≤ cv.individual_component_upper_limit := by
  have hc : (⟨[(Var.food it.id, 1)], CmpRel.le,
      cv.individual_component_upper_limit⟩ : Constr)
      ∈ (buildProgram data cv).constraints := by
    simp only [buildProgram]
    refine List.mem_append.2 (Or.inl (List.mem_append.2 (Or.inl
      (List.mem_append.2 (Or.inr ?_)))))
    exact List.mem_map.2 ⟨it, hit, rfl⟩
  have h2 := hs _ hc
  simpa [constrHolds, evalTerms, varValue] using h2

/-- The minimum-variety constraint is part of the built program. -/
lemma group_count_constraint_mem (data : List FoodItem) (cv : CValues) :
    (⟨(uniqueGroups (data.map (fun it => it.group))).map (fun g => (Var.group g, 1)),
      CmpRel.ge, (cv.food_group_limit : ℚ)⟩ : Constr)
      ∈ (buildProgram data cv).constraints := by
  simp only [buildProgram]
  refine List.mem_append.2 (Or.inr ?_)
  exact List.mem_singleton.2 rfl

/-- Claim C9: the model builder is deterministic: two calls with
identical catalog subset and constraint values construct programs with
identical variables, coefficients, objective and constraints.  The
construction reads nothing but its inputs. -/
theorem buildProgram_deterministic (d1 d2 : List FoodItem) (c1 c2 : CValues)
    (hd : d1 = d2) (hc : c1 = c2) : buildProgram d1 c1 = buildProgram d2 c2 := by
  subst hd
  subst hc
  rfl

/-- Claim C9 witness: determinism at the concrete catalog. -/
theorem buildProgram_deterministic_witness :
    buildProgram exData read_constraints = buildProgram exData read_constraints :=
  buildProgram_deterministic exData exData read_constraints read_constraints rfl rfl

/-- Claim C4: for a non-empty catalog subset the built program is
exactly the formulation the specification states: same objective, same
continuous and binary variables, and the same constraints up to the
order in which the two lists write the macro equalities (the source
adds fat before protein, the specification lists protein before fat). -/
theorem buildProgram_matches_spec_formulation (data : List FoodItem)
    (cv : CValues) (h : data ≠ []) :
    (buildProgram data cv).objTerms = (specModelProgram data cv).objTerms ∧
    (buildProgram data cv).contVars = (specModelProgram data cv).contVars ∧
    (buildProgram data cv).binVars = (specModelProgram data cv).binVars ∧
    (buildProgram data cv).constraints.Perm (specModelProgram data cv).constraints := by
  refine ⟨rfl, rfl, rfl, ?_⟩
  simp only [buildProgram, specModelProgram, List.cons_append, List.nil_append]
  exact List.Perm.cons _ (List.Perm.cons _ (List.Perm.swap _ _ _))

/-- Claim C4 witness: the formulation match at the concrete catalog. -/
theorem buildProgram_matches_spec_formulation_witness :
    (buildProgram exData read_constraints).objTerms
      = (specModelProgram exData read_constraints).objTerms ∧
    (buildProgram exData read_constraints).contVars
      = (specModelProgram exData read_constraints).contVars ∧
    (buildProgram exData read_constraints).binVars
      = (specModelProgram exData read_constraints).binVars ∧
    (buildProgram exData read_constraints).constraints.Perm
      (specModelProgram exData read_constraints).constraints :=
  buildProgram_matches_spec_formulation exData read_constraints (by decide)

/-- Claim C3 counterexample: meal_optimizer performs no emptiness
precondition check.  On the empty catalog subset the program is built
and handed to the solver, and the outcome is dictated by the returned
status: an optimal status even yields an empty meal, a non-optimal one
yields the ordinary failure path.  No precondition-violation signal
distinct from the ordinary solve takes place. -/
theorem empty_catalog_is_handed_to_solver :
    meal_optimizer [] read_constraints (fun _ => sOne) =
      some ([], [], ⟨0, 0, 0, 0, 0, 0⟩) ∧
    meal_optimizer [] read_constraints (fun _ => sZero) = none := by
  constructor
  · decide
  · decide

/-- Claim C3 amended: for an empty catalog subset no precondition
failure happens; the builder produces a program whose aggregate
constraint rows have empty sums, and the solver status alone decides
between an empty extracted meal and the failure path. -/
theorem meal_optimizer_empty_catalog_no_precondition (cv : CValues)
    (s : Program → SolverOutput)
    (h1 : (s (buildProgram [] cv)).status = 1) :
    meal_optimizer [] cv s = some ([], [], ⟨0, 0, 0, 0, 0, 0⟩) ∧
    (buildProgram [] cv).constraints =
      [⟨[], CmpRel.eq, cv.energy_limit_kJ⟩,
       ⟨[], CmpRel.eq, cv.carb_limit⟩,
       ⟨[], CmpRel.eq, cv.fat_limit⟩,
       ⟨[], CmpRel.eq, cv.protein_limit⟩,
       ⟨[], CmpRel.ge, cv.fibre_lower_limit⟩,
       ⟨[], CmpRel.ge, (cv.food_group_limit : ℚ)⟩] := by
  constructor
  · simp [meal_optimizer, h1, bestMealOf, bestGroupOf, resultsOf, evalTerms,
      buildProgram, uniqueGroups]
    exact h1
  · rfl

/-- Claim C3 amended witness: the empty catalog with an
optimal-status solver answer. -/
theorem meal_optimizer_empty_catalog_no_precondition_witness :
    meal_optimizer [] read_constraints (fun _ => sOne) =
      some ([], [], ⟨0, 0, 0, 0, 0, 0⟩) ∧
    (buildProgram [] read_constraints).constraints =
      [⟨[], CmpRel.eq, read_constraints.energy_limit_kJ⟩,
       ⟨[], CmpRel.eq, read_constraints.carb_limit⟩,
       ⟨[], CmpRel.eq, read_constraints.fat_limit⟩,
       ⟨[], CmpRel.eq, read_constraints.protein_limit⟩,
       ⟨[], CmpRel.ge, read_constraints.fibre_lower_limit⟩,
       ⟨[], CmpRel.ge, (read_constraints.food_group_limit : ℚ)⟩] :=
  meal_optimizer_empty_catalog_no_precondition read_constraints (fun _ => sOne) rfl

/-- Claim C2 counterexample: the solved values violate the declared
energy equality wildly, yet a meal is returned together with the
violating totals; nothing is signalled. -/
theorem meal_returned_despite_constraint_violation :
    (meal_optimizer c2Data read_constraints (fun _ => c2Out)).isSome = true ∧
    ¬ constrHolds c2Out.foodVal c2Out.groupVal
        ⟨c2Data.map (fun it => (Var.food it.id, it.energy)), CmpRel.eq,
         read_constraints.energy_limit_kJ⟩ ∧
    (((meal_optimizer c2Data read_constraints (fun _ => c2Out)).getD mdefault).2.2).totalEnergy
      ≠ read_constraints.energy_limit_kJ := by
  refine ⟨rfl, ?_, by decide⟩
  decide

/-- Claim C2 amended: the extractor performs no consistency check:
whenever the status is optimal it returns the meal with totals
recomputed from the chosen portions, and it does so even for the
concrete assignment that violates the declared constraints. -/
theorem meal_optimizer_returns_meal_without_consistency_check
    (data : List FoodItem) (cv : CValues) (s : Program → SolverOutput)
    (h : (s (buildProgram data cv)).status = 1) :
    (meal_optimizer data cv s).isSome = true ∧
    meal_optimizer c2Data read_constraints (fun _ => c2Out) =
      some (bestMealOf c2Data c2Out, bestGroupOf c2Data c2Out,
            resultsOf c2Data (buildProgram c2Data read_constraints) c2Out) ∧
    ¬ satisfies c2Out (buildProgram c2Data read_constraints) := by
  refine ⟨?_, rfl, by decide⟩
  simp [meal_optimizer, h]

/-- Claim C2 amended witness: instantiated at the violating concrete
solver answer. -/
theorem meal_optimizer_returns_meal_without_consistency_check_witness :
    (meal_optimizer c2Data read_constraints (fun _ => c2Out)).isSome = true ∧
    meal_optimizer c2Data read_constraints (fun _ => c2Out) =
      some (bestMealOf c2Data c2Out, bestGroupOf c2Data c2Out,
            resultsOf c2Data (buildProgram c2Data read_constraints) c2Out) ∧
    ¬ satisfies c2Out (buildProgram c2Data read_constraints) :=
  meal_optimizer_returns_meal_without_consistency_check c2Data read_constraints
    (fun _ => c2Out) rfl

/-- Claim C7: an item variable of an optimally solved program is
included in the extracted meal exactly when its value exceeds
1.1e-5; in particular a value of exactly 1e-5 is excluded and a
value of 1.2e-5 is included. -/
theorem meal_selection_threshold (data : List FoodItem) (cv : CValues)
    (s : Program → SolverOutput) (meal : List MealEntry)
    (groups : List String) (res : MealResults) (it : FoodItem)
    (hm : meal_optimizer data cv s = some (meal, groups, res))
    (hit : it ∈ data) :
    ((∃ e ∈ meal, e.id = it.id) ↔
        11 / 1000000 < (s (buildProgram data cv)).foodVal it.id) ∧
    ((s (buildProgram data cv)).foodVal it.id = 1 / 100000 →
        ∀ e ∈ meal, e.id ≠ it.id) ∧
    ((s (buildProgram data cv)).foodVal it.id = 12 / 1000000 →
        ∃ e ∈ meal, e.id = it.id) := by
  have hmm : meal = bestMealOf data (s (buildProgram data cv)) :=
    (meal_optimizer_some hm).1
  subst hmm
  have hiff : (∃ e ∈ bestMealOf data (s (buildProgram data cv)), e.id = it.id) ↔
      11 / 1000000 < (s (buildProgram data cv)).foodVal it.id := by
    constructor
    · rintro ⟨e, he, hei⟩
      obtain ⟨it2, _, hid2, _, hgt2⟩ := bestMealOf_mem he
      rw [hei] at hid2
      rw [hid2]
      exact hgt2
    · intro hgt
      exact ⟨_, bestMealOf_mem_of hit hgt, rfl⟩
  refine ⟨hiff, ?_, ?_⟩
  · intro heps e he hei
    have hgt := hiff.1 ⟨e, he, hei⟩
    rw [heps] at hgt
    norm_num at hgt
  · intro h12
    refine hiff.2 ?_
    rw [h12]
    norm_num

/-- Claim C7 witness: on the two-item catalog the epsilon-valued item
1 is excluded and the 1.2-epsilon-valued item 2 is included. -/
theorem meal_selection_threshold_witness :
    (∀ e ∈ ((meal_optimizer c7Data read_constraints (fun _ => c7Out)).getD mdefault).1,
        e.id ≠ (1 : Int)) ∧
    (∃ e ∈ ((meal_optimizer c7Data read_constraints (fun _ => c7Out)).getD mdefault).1,
        e.id = (2 : Int)) := by
  constructor
  · exact (meal_selection_threshold c7Data read_constraints (fun _ => c7Out)
      ((meal_optimizer c7Data read_constraints (fun _ => c7Out)).getD mdefault).1
      ((meal_optimizer c7Data read_constraints (fun _ => c7Out)).getD mdefault).2.1
      ((meal_optimizer c7Data read_constraints (fun _ => c7Out)).getD mdefault).2.2
      ⟨1, "p1", 1, 0, 0, 0, 0, 0, "a"⟩ (by decide) (by decide)).2.1 (by decide)
  · exact (meal_selection_threshold c7Data read_constraints (fun _ => c7Out)
      ((meal_optimizer c7Data read_constraints (fun _ => c7Out)).getD mdefault).1
      ((meal_optimizer c7Data read_constraints (fun _ => c7Out)).getD mdefault).2.1
      ((meal_optimizer c7Data read_constraints (fun _ => c7Out)).getD mdefault).2.2
      ⟨2, "p2", 1, 0, 0, 0, 0, 0, "a"⟩ (by decide) (by decide)).2.2 (by decide)

/-- Claim C10: the Total sugar entry of the results is the objective
value summed over all item variables, epsilon artifacts included, and
on the concrete epsilon-artifact catalog it strictly exceeds the sugar
of the extracted meal alone. -/
theorem total_sugar_is_full_objective :
    (∀ (data : List FoodItem) (cv : CValues) (s : Program → SolverOutput)
        (meal : List MealEntry) (groups : List String) (res : MealResults),
      meal_optimizer data cv s = some (meal, groups, res) →
        res.totalSugar =
          (data.map (fun it =>
            it.sugar * (s (buildProgram data cv)).foodVal it.id)).sum) ∧
    ((meal_optimizer c10Data read_constraints (fun _ => c5Out)).isSome = true ∧
      mealSugar c10Data
        (((meal_optimizer c10Data read_constraints (fun _ => c5Out)).getD mdefault).1)
        < (((meal_optimizer c10Data read_constraints
            (fun _ => c5Out)).getD mdefault).2.2).totalSugar) := by
  constructor
  · intro data cv s meal groups res hm
    have hres : res = resultsOf data (buildProgram data cv) (s (buildProgram data cv)) :=
      (meal_optimizer_some hm).2.2
    subst hres
    show evalTerms _ _ (buildProgram data cv).objTerms = _
    simp only [buildProgram, evalTerms, List.map_map]
    congr 1
  · exact ⟨by decide, by decide⟩

/-- Claim C10 witness: the objective equality instantiated at the
concrete violating solver answer of the single-item catalog. -/
theorem total_sugar_is_full_objective_witness :
    (((meal_optimizer c2Data read_constraints (fun _ => c2Out)).getD mdefault).2.2).totalSugar
      = (c2Data.map (fun it => it.sugar * c2Out.foodVal it.id)).sum :=
  total_sugar_is_full_objective.1 c2Data read_constraints (fun _ => c2Out)
    ((meal_optimizer c2Data read_constraints (fun _ => c2Out)).getD mdefault).1
    ((meal_optimizer c2Data read_constraints (fun _ => c2Out)).getD mdefault).2.1
    ((meal_optimizer c2Data read_constraints (fun _ => c2Out)).getD mdefault).2.2
    (by decide)

/-- Claim C8: every item of an extracted meal has a positive portion,
and when the solver answer satisfies the built program the portion is
bounded by the individual component upper limit. -/
theorem meal_portion_bounds (data : List FoodItem) (cv : CValues)
    (s : Program → SolverOutput) (meal : List MealEntry)
    (groups : List String) (res : MealResults) (e : MealEntry)
    (hm : meal_optimizer data cv s = some (meal, groups, res))
    (hs : satisfies (s (buildProgram data cv)) (buildProgram data cv))
    (he : e ∈ meal) :
    0 < e.portion ∧ e.portion ≤ cv.individual_component_upper_limit := by
  have hmm : meal = bestMealOf data (s (buildProgram data cv)) :=
    (meal_optimizer_some hm).1
  subst hmm
  obtain ⟨it, hit, hid, hport, hgt⟩ := bestMealOf_mem he
  constructor
  · rw [hport]
    have h0 : (0 : ℚ) < 11 / 1000000 := by norm_num
    linarith
  · rw [hport]
    exact satisfies_upper_bound hs hit

/-- Claim C8 witness: the day-zero optimal solution of the concrete
catalog gives item 1 the portion 1, which is positive and below the
limit 5. -/
theorem meal_portion_bounds_witness :
    0 < (MealEntry.mk 1 "w1" 1).portion ∧
    (MealEntry.mk 1 "w1" 1).portion
      ≤ read_constraints.individual_component_upper_limit :=
  meal_portion_bounds exData read_constraints (fun _ => outEven)
    ((meal_optimizer exData read_constraints (fun _ => outEven)).getD mdefault).1
    ((meal_optimizer exData read_constraints (fun _ => outEven)).getD mdefault).2.1
    ((meal_optimizer exData read_constraints (fun _ => outEven)).getD mdefault).2.2
    (MealEntry.mk 1 "w1" 1) (by decide) (by decide) (by decide)

/-- Claim C5 counterexample: a feasible zero-one solution of the built
program in which every item of the third chosen category sits exactly
at the epsilon lower bound.  The extraction filters these artifacts
out, so the meal contains items of only two distinct categories while
food_group_limit is three. -/
theorem meal_with_fewer_categories_than_limit :
    c5Out.status = 1 ∧
    satisfies c5Out (buildProgram c5Data read_constraints) ∧
    (∀ g ∈ (buildProgram c5Data read_constraints).binVars,
        c5Out.groupVal g = 0 ∨ c5Out.groupVal g = 1) ∧
    (meal_optimizer c5Data read_constraints (fun _ => c5Out)).isSome = true ∧
    (uniqueGroups (mealCategories c5Data
      (((meal_optimizer c5Data read_constraints (fun _ => c5Out)).getD mdefault).1))).length
      = 2 ∧
    2 < read_constraints.food_group_limit := by
  refine ⟨rfl, by decide, by decide, by decide, by decide, by decide⟩

/-- Claim C5 amended: what the built program does guarantee is the
count of chosen category indicators: for any zero-one solver answer
satisfying the program, the extracted best group list has at least
food_group_limit entries; the count of distinct categories among the
meal items themselves can be smaller, as the counterexample shows. -/
theorem chosen_group_count_at_least_limit (data : List FoodItem)
    (cv : CValues) (s : Program → SolverOutput) (meal : List MealEntry)
    (groups : List String) (res : MealResults)
    (hm : meal_optimizer data cv s = some (meal, groups, res))
    (hb : ∀ g ∈ (buildProgram data cv).binVars,
        (s (buildProgram data cv)).groupVal g = 0 ∨
        (s (buildProgram data cv)).groupVal g = 1)
    (hs : satisfies (s (buildProgram data cv)) (buildProgram data cv)) :
    cv.food_group_limit ≤ groups.length := by
  have hgg : groups = bestGroupOf data (s (buildProgram data cv)) :=
    (meal_optimizer_some hm).2.1
  subst hgg
  have h1 := hs _ (group_count_constraint_mem data cv)
  have h2 : ((cv.food_group_limit : ℚ)) ≤
      ((uniqueGroups (data.map (fun it => it.group))).map
        (s (buildProgram data cv)).groupVal).sum := by
    simpa [constrHolds, evalTerms_group_ones] using h1
  have hb2 : ∀ g ∈ uniqueGroups (data.map (fun it => it.group)),
      (s (buildProgram data cv)).groupVal g = 0 ∨
      (s (buildProgram data cv)).groupVal g = 1 := hb
  have h3 := sum_indicator_le_countPos (s (buildProgram data cv)).groupVal
    (uniqueGroups (data.map (fun it => it.group))) hb2
  have h4 : ((cv.food_group_limit : ℚ)) ≤
      ((bestGroupOf data (s (buildProgram data cv))).length : ℚ) := le_trans h2 h3
  exact_mod_cast h4

/-- Claim C5 amended witness: the epsilon-artifact instance still marks
three categories as chosen. -/
theorem chosen_group_count_at_least_limit_witness :
    read_constraints.food_group_limit ≤
      (((meal_optimizer c5Data read_constraints (fun _ => c5Out)).getD mdefault).2.1).length :=
  chosen_group_count_at_least_limit c5Data read_constraints (fun _ => c5Out)
    ((meal_optimizer c5Data read_constraints (fun _ => c5Out)).getD mdefault).1
    ((meal_optimizer c5Data read_constraints (fun _ => c5Out)).getD mdefault).2.1
    ((meal_optimizer c5Data read_constraints (fun _ => c5Out)).getD mdefault).2.2
    (by decide) (by decide) (by decide)

/-- Claim C6: failure is fatal and total: a non-optimal status means
meal_optimizer returns nothing; the day loop aborts with no plan from
the day the solver fails; a successful run always carries exactly
seven days, never a partial plan; and with a sound solver an empty
filtered catalog can only abort, because the empty program forces the
impossible equality 0 = energy target. -/
theorem run_fails_fast_no_partial_plan (data : List FoodItem) (cv : CValues)
    (solver : ℕ → Program → SolverOutput) :
    (∀ (d : List FoodItem) (s : Program → SolverOutput),
        (s (buildProgram d cv)).status ≠ 1 → meal_optimizer d cv s = none) ∧
    (∀ plan, runWeek data cv solver = some plan → plan.length = 7) ∧
    (∀ fuel day prev,
        (solver day (buildProgram (filterData data prev) cv)).status ≠ 1 →
        runDays data cv solver (fuel + 1) day prev = none) ∧
    (∀ fuel day prev, filterData data prev = [] → soundSolver (solver day) →
        cv.energy_limit_kJ ≠ 0 → runDays data cv solver (fuel + 1) day prev = none) := by
  have hnone : ∀ (d : List FoodItem) (s : Program → SolverOutput),
      (s (buildProgram d cv)).status ≠ 1 → meal_optimizer d cv s = none := by
    intro d s h
    simp [meal_optimizer, h]
  refine ⟨hnone, ?_, ?_, ?_⟩
  · intro plan h
    exact runDays_length 7 0 [] plan h
  · intro fuel day prev h
    rw [runDays, hnone _ _ h]
    rfl
  · intro fuel day prev hemp hsound hE
    by_cases hst : (solver day (buildProgram (filterData data prev) cv)).status = 1
    · exfalso
      have hsat := hsound _ hst
      rw [hemp] at hsat hst
      have hc : (⟨[], CmpRel.eq, cv.energy_limit_kJ⟩ : Constr)
          ∈ (buildProgram [] cv).constraints := by
        simp [buildProgram]
      have h2 := hsat _ hc
      simp only [constrHolds, evalTerms, List.map_nil, List.sum_nil] at h2
      exact hE h2.symm
    · rw [runDays, hnone _ _ hst]
      rfl

/-- Claim C6 witness: a run whose solver reports failure on the empty
catalog aborts with no weekly plan. -/
theorem run_fails_fast_no_partial_plan_witness :
    runWeek [] read_constraints zSolver = none :=
  (run_fails_fast_no_partial_plan [] read_constraints zSolver).2.2.2 6 0 []
    rfl (fun p hp => by simp [zSolver] at hp) (by decide)

/-- Claim C1 counterexample: the day loop overwrites best_group each
day instead of accumulating it, so on the concrete six-item catalog
with feasible optimal solutions for every day, category a is used on
day 0 and an item of category a is selected again on day 2 of the
produced weekly plan. -/
theorem week_plan_repeats_category_after_two_days :
    (runWeek exData read_constraints exSolver).isSome = true ∧
    "a" ∈ (exPlan.getD 0 ([], [])).2 ∧
    "a" ∈ mealCategories exData ((exPlan.getD 0 ([], [])).1) ∧
    "a" ∈ mealCategories exData ((exPlan.getD 2 ([], [])).1) ∧
    satisfies outEven (buildProgram exData read_constraints) ∧
    satisfies outOdd (buildProgram (filterData exData ["a", "b", "c"]) read_constraints) ∧
    satisfies outEven (buildProgram (filterData exData ["d", "e", "f"]) read_constraints) := by
  refine ⟨by decide, by decide, by decide, by decide, by decide, by decide, by decide⟩

/-- Claim C1 amended: the exclusion the loop actually maintains is
between consecutive days only: in any produced weekly plan, no
category recorded as used on a day appears among the items selected
on the following day. -/
theorem runWeek_excludes_previous_day_categories (data : List FoodItem)
    (cv : CValues) (solver : ℕ → Program → SolverOutput)
    (plan : List (List MealEntry × List String))
    (hnd : (data.map FoodItem.id).Nodup)
    (hplan : runWeek data cv solver = some plan)
    (d : ℕ) (hd : d + 1 < plan.length)
    (e : MealEntry) (he : e ∈ (plan.getD (d + 1) ([], [])).1)
    (it : FoodItem) (hit : it ∈ data) (hid : it.id = e.id) :
    it.group ∉ (plan.getD d ([], [])).2 := by
  rw [runWeek] at hplan
  exact runDays_adjacent hnd 7 0 [] plan hplan d hd e he it hit hid

/-- Claim C1 amended witness: on the concrete week, item 4 selected on
day 1 belongs to group d, which is not among the groups used on day
0. -/
theorem runWeek_excludes_previous_day_categories_witness :
    exItem4.group ∉ (exPlan.getD 0 ([], [])).2 :=
  runWeek_excludes_previous_day_categories exData read_constraints exSolver exPlan
    (by decide) (by decide) 0 (by decide) ⟨4, "w4", 1⟩ (by decide)
    exItem4 (by decide) (by decide)
